import Mathlib

/-!
# Verification of the notebook dashboard front end

Shallow embedding of `src/static/js/dashboard.js` (data-preview search,
model-training request assembly, result presentation, mock/demo fallbacks)
together with the spec's server-side training contract, and proofs of the
frozen claims about them.

Conventions of the embedding:
* JavaScript numbers are modelled as rationals (`ℚ`); `Number.prototype.toFixed`
  is modelled exactly on rationals (round half towards `+∞`, per ECMA-262's
  "pick the larger n" tie rule).
* DOM reads (input values), `Math.random()` and `Date` are ambient effects of
  the browser; they enter the embedding as explicit parameters (an `Option`
  input value, a stream of random draws, a timestamp string).
* `fetch` results are modelled by `FetchOutcome`: a resolved response or a
  rejected promise carrying the error message.
-/

/-- A JavaScript value as it occurs in preview-table cells (JSON scalars;
numeric cells restricted to integers, which `String()` renders exactly). -/
inductive JValue where
  | jnull : JValue
  | jstr (s : String) : JValue
  | jint (n : Int) : JValue
  | jbool (b : Bool) : JValue
deriving DecidableEq, Repr

/-- JavaScript truthiness of a `JValue` (`null`, `""`, `0`, `false` are falsy). -/
def jsTruthy : JValue → Bool
  | JValue.jnull => false
  | JValue.jstr s => decide (s ≠ "")
  | JValue.jint n => decide (n ≠ 0)
  | JValue.jbool b => b

/-- `String(v)` on a `JValue`. -/
def jsString : JValue → String
  | JValue.jnull => "null"
  | JValue.jstr s => s
  | JValue.jint n => toString n
  | JValue.jbool b => if b then "true" else "false"

/-- `String(cell || '')` from `performDataSearch`: falsy cells collapse to the
empty string before conversion. -/
def cellSearchString (c : JValue) : String :=
  if jsTruthy c then jsString c else ""

/-- Does `pat` occur at the head of `cs`? (helper for substring search). -/
def chStarts : List Char → List Char → Bool
  | [], _ => true
  | _ :: _, [] => false
  | p :: ps, c :: cs => p = c && chStarts ps cs

/-- Does `pat` occur anywhere in `cs`? (helper for substring search). -/
def chHasSub (pat : List Char) : List Char → Bool
  | [] => chStarts pat []
  | c :: cs => chStarts pat (c :: cs) || chHasSub pat cs

/-- `s.includes(pat)` of JavaScript strings. -/
def strIncludes (s pat : String) : Bool :=
  chHasSub pat.toList s.toList

/-- `s.toLowerCase()` (character-wise lowercasing). -/
def jsToLower (s : String) : String :=
  String.mk (s.toList.map Char.toLower)

/-- `s.trim()`: strip leading and trailing whitespace. -/
def jsTrim (s : String) : String :=
  String.mk (((s.toList.dropWhile Char.isWhitespace).reverse.dropWhile
    Char.isWhitespace).reverse)

/-- The preview payload held in `window.previewData`. -/
structure PreviewData where
  columns : List String
  rows : List (List JValue)
deriving DecidableEq, Repr

/-- The column selector of the preview search: `'all'` or a parsed column index. -/
inductive SearchColumn where
  | all : SearchColumn
  | idx (i : Nat) : SearchColumn
deriving DecidableEq, Repr

/-- The row predicate of `performDataSearch`: search one column when an index
in range is selected, otherwise any column when `all` is selected. -/
def rowMatches (searchTerm : String) (col : SearchColumn) (row : List JValue) : Bool :=
  match col with
  | SearchColumn.idx i =>
      if i < row.length then
        strIncludes (jsToLower (cellSearchString (row.getD i JValue.jnull))) searchTerm
      else false
  | SearchColumn.all =>
      row.any fun cell => strIncludes (jsToLower (cellSearchString cell)) searchTerm

/-- `performDataSearch` (dashboard.js 226-264): the rows handed to
`displayDataPreview`.  The raw input is lowercased then trimmed; an empty term
shows the full preview, otherwise rows are filtered by `rowMatches`. -/
def performDataSearch (preview : PreviewData) (rawInput : String) (col : SearchColumn) :
    List (List JValue) :=
  let searchTerm := jsTrim (jsToLower rawInput)
  if searchTerm = "" then preview.rows
  else preview.rows.filter (rowMatches searchTerm col)

/-- The cell-matching condition as the claim words it: the cell "converted to a
lowercase string" (null cells compared as the empty string) contains the term. -/
def claimCellMatches (searchTerm : String) (cell : JValue) : Bool :=
  strIncludes (jsToLower (match cell with
    | JValue.jnull => ""
    | c => jsString c)) searchTerm

/-- A fixed-decimal display value: `scaled / 10^digits`, the result of
`Number.prototype.toFixed(digits)`. -/
structure FixedDec where
  digits : Nat
  scaled : Int
deriving DecidableEq, Repr

/-- `x.toFixed(d)` on rationals: the integer `n` with `n / 10^d` closest to `x`,
ties resolved to the larger `n` (ECMA-262), i.e. round half towards `+∞`. -/
def jsToFixed (d : Nat) (x : ℚ) : FixedDec :=
  ⟨d, ⌊x * (10 : ℚ) ^ d + 1 / 2⌋⟩

/-- A metric value as delivered by the backend: a number or some other scalar
rendered verbatim. -/
inductive MetricValue where
  | num (q : ℚ) : MetricValue
  | str (s : String) : MetricValue
deriving DecidableEq, Repr

/-- A display value: a fixed-decimal formatted number or a raw string. -/
inductive DisplayVal where
  | fixed (f : FixedDec) : DisplayVal
  | raw (s : String) : DisplayVal
deriving DecidableEq, Repr

/-- `typeof value === 'number' ? value.toFixed(4) : value` from
`displayModelResults` (dashboard.js 1110). -/
def displayMetricValue : MetricValue → DisplayVal
  | MetricValue.num q => DisplayVal.fixed (jsToFixed 4 q)
  | MetricValue.str s => DisplayVal.raw s

/-- The same ternary as it appears independently in `exportModelResults`
(dashboard.js 1488). -/
def exportMetricValue : MetricValue → DisplayVal
  | MetricValue.num q => DisplayVal.fixed (jsToFixed 4 q)
  | MetricValue.str s => DisplayVal.raw s

/-- Is `c` a regex `\w` word character? -/
def isWordChar (c : Char) : Bool := c.isAlphanum || c = '_'

/-- Uppercase every word-initial character (regex `\b\w` replacement); the
Boolean argument records whether the previous character was a word character. -/
def capWordStarts : Bool → List Char → List Char
  | _, [] => []
  | prevWord, c :: cs =>
      (if !prevWord && isWordChar c then c.toUpper else c) :: capWordStarts (isWordChar c) cs

/-- `formatMetricName` (dashboard.js 1425-1429): underscores to spaces, then
capitalize word starts. -/
def formatMetricName (m : String) : String :=
  String.mk (capWordStarts false (m.toList.map fun c => if c = '_' then ' ' else c))

/-- The metric cards of `displayModelResults` (dashboard.js 1107-1112):
formatted metric name paired with the displayed value. -/
def renderMetrics (metrics : List (String × MetricValue)) : List (String × DisplayVal) :=
  metrics.map fun e => (formatMetricName e.1, displayMetricValue e.2)

/-- The metric rows of the exported CSV (dashboard.js 1487-1489). -/
def exportMetricRows (metrics : List (String × MetricValue)) : List (String × DisplayVal) :=
  metrics.map fun e => (formatMetricName e.1, exportMetricValue e.2)

/-- `[...new Set(xs)]`: distinct elements of `xs` in first-occurrence order. -/
def jsSetList {α : Type} [DecidableEq α] (xs : List α) : List α :=
  xs.foldl (fun acc x => if x ∈ acc then acc else acc ++ [x]) []

/-- `confusionMatrix[a][p] = confusionMatrix[a][p] + 1`: one increment of the
matrix under construction. -/
def bumpCell {α : Type} [DecidableEq α] (m : α → α → Nat) (a p : α) : α → α → Nat :=
  fun x y => if x = a ∧ y = p then m x y + 1 else m x y

/-- The fill loop of `createCategoricalPredictionTable` (dashboard.js
1283-1285): one increment per (actual, predicted) pair. -/
def fillMatrix {α : Type} [DecidableEq α] : List (α × α) → (α → α → Nat) → (α → α → Nat)
  | [], m => m
  | q :: rest, m => fillMatrix rest (bumpCell m q.1 q.2)

/-- The confusion matrix as a cell function, built by iterating over the
parallel `actual`/`predicted` sequences starting from the all-zero matrix. -/
def confusionMatrix {α : Type} [DecidableEq α] (actual predicted : List α) : α → α → Nat :=
  fillMatrix (actual.zip predicted) fun _ _ => 0

/-- `actual.filter((val, idx) => val === predicted[idx]).length`
(dashboard.js 1351); an out-of-range `predicted[idx]` is `undefined` and
compares unequal. -/
def matchCount {α : Type} [DecidableEq α] (actual predicted : List α) : Nat :=
  (actual.enum.filter fun e => decide (predicted.get? e.1 = some e.2)).length

/-- The rendered confusion-matrix view: the header categories and the grid of
counts read back from the matrix, row by row (dashboard.js 1288-1314). -/
structure ConfusionView (α : Type) where
  cats : List α
  cells : List (List Nat)
deriving DecidableEq, Repr

/-- The rendered sample-predictions view: sample size shown, total count,
numbered sample rows with their match flags, the match total for the accuracy
summary, and the accuracy percentage formatted with `toFixed(1)`
(dashboard.js 1317-1361). -/
structure SampleView (α : Type) where
  sampleSize : Nat
  total : Nat
  rows : List (Nat × α × α × Bool)
  totalMatches : Nat
  accuracy : FixedDec
deriving DecidableEq, Repr

/-- The display structure produced by `createCategoricalPredictionTable`. -/
inductive CatPredView (α : Type) where
  | conf (v : ConfusionView α) : CatPredView α
  | sample (v : SampleView α) : CatPredView α
deriving DecidableEq, Repr

/-- `createCategoricalPredictionTable` (dashboard.js 1258-1363): at most 10
distinct categories yields a full confusion matrix, otherwise up to 20 sample
rows plus an overall accuracy summary.  The sequences are the parallel
`predictions.actual` / `predictions.predicted` arrays. -/
def createCategoricalPredictionTable {α : Type} [DecidableEq α]
    (actual predicted : List α) : CatPredView α :=
  let uniqueCategories := jsSetList (actual ++ predicted)
  if uniqueCategories.length ≤ 10 then
    let cm := confusionMatrix actual predicted
    CatPredView.conf ⟨uniqueCategories,
      uniqueCategories.map fun a => uniqueCategories.map fun p => cm a p⟩
  else
    let sampleSize := min actual.length 20
    let totalMatches := matchCount actual predicted
    CatPredView.sample ⟨sampleSize, actual.length,
      ((actual.zip predicted).take sampleSize).enum.map
        (fun e => (e.1 + 1, e.2.1, e.2.2, decide (e.2.1 = e.2.2))),
      totalMatches,
      jsToFixed 1 ((totalMatches : ℚ) / (actual.length : ℚ) * 100)⟩

/-- The stable descending sort `(a, b) => b[1] - a[1]` applied to
`Object.entries(featureImportance)` (dashboard.js 1371-1372, 1498-1499). -/
def sortDescByVal (fi : List (String × ℚ)) : List (String × ℚ) :=
  fi.mergeSort fun a b => decide (b.2 ≤ a.2)

/-- The bar-chart data of `createFeatureImportanceChart` (dashboard.js
1366-1422): every feature, sorted by importance descending, raw values. -/
def featureImportanceChartData (fi : List (String × ℚ)) : List (String × ℚ) :=
  sortDescByVal fi

/-- The chart tooltip label `(value * 100).toFixed(1)` (dashboard.js 1401):
the raw weight is multiplied by 100, with no re-normalization. -/
def chartTooltipPercent (v : ℚ) : FixedDec :=
  jsToFixed 1 (v * 100)

/-- The AI-adoption insight list of `displayModelResults` (dashboard.js
1149-1154): sort descending, slice the top 5, show `(importance * 100).toFixed(1)`. -/
def insightEntries (fi : List (String × ℚ)) : List (String × FixedDec) :=
  ((sortDescByVal fi).take 5).map fun e => (e.1, jsToFixed 1 (e.2 * 100))

/-- The feature-importance rows of the exported CSV (dashboard.js 1497-1503):
sorted descending, `importance.toFixed(4)`, no truncation. -/
def exportFeatureRows (fi : List (String × ℚ)) : List (String × FixedDec) :=
  (sortDescByVal fi).map fun e => (e.1, jsToFixed 4 e.2)

/-- The percentage the claim asks for: each weight re-normalized by the sum of
all weights before scaling to percent. -/
def specNormalizedPercents (fi : List (String × ℚ)) : List (String × ℚ) :=
  fi.map fun e => (e.1, e.2 / (fi.map Prod.snd).sum * 100)

/-- A prediction value: a category label (classification) or a number
(regression). -/
inductive PredVal where
  | str (s : String) : PredVal
  | num (q : ℚ) : PredVal
deriving DecidableEq, Repr

/-- The `predictions` payload of a model result: parallel actual/predicted
sequences plus the categorical label-to-index mapping (empty for regression,
where the source omits the field). -/
structure Predictions where
  actual : List PredVal
  predicted : List PredVal
  categorical_mapping : List (String × Nat)
deriving DecidableEq, Repr

/-- The model parameters collected by `collectModelParameters`
(dashboard.js 1048-1079), one shape per model type. -/
inductive ModelParams where
  | linear (fit_intercept normalize : Bool) : ModelParams
  | forest (n_estimators : Int) (max_depth : Option Int)
      (min_samples_split min_samples_leaf : Int) : ModelParams
  | boost (n_estimators : Int) (learning_rate : ℚ) (max_depth : Int)
      (subsample : ℚ) : ModelParams
  | svm (kernel : String) (C : ℚ) (gamma : String) : ModelParams
  | empty : ModelParams
deriving DecidableEq, Repr

/-- The model-result object consumed by the presenter: the `/api/train_model`
response body, which is also the shape `createMockModelResults` fabricates. -/
structure ModelResultData where
  success : Bool
  error : Option String
  model_id : String
  model_name : String
  target_column : String
  model_type : String
  params : ModelParams
  metrics : List (String × MetricValue)
  feature_importance : Option (List (String × ℚ))
  predictions : Option Predictions
  is_categorical_target : Bool
  target_mapping : List (String × Nat)
  created_at : String
deriving DecidableEq, Repr

/-- The scatter data of `createPredictionVsActualChart` (dashboard.js
1213-1224): one point per actual value, paired with the predicted value at the
same index (`none` when out of range, JavaScript `undefined`). -/
structure ScatterView where
  points : List (PredVal × Option PredVal)
deriving DecidableEq, Repr

/-- The prediction visualization chosen by `displayModelResults`
(dashboard.js 1194-1200). -/
inductive PredRender where
  | scatter (v : ScatterView) : PredRender
  | categorical (v : CatPredView PredVal) : PredRender
deriving DecidableEq, Repr

/-- `getModelImprovementSuggestions` (dashboard.js 1432-1465). -/
def getModelImprovementSuggestions (modelType : String)
    (metrics : List (String × MetricValue)) : List String :=
  let base := ["Consider feature engineering to create new meaningful features.",
    "Try scaling features for potentially better model performance."]
  let lowR2 := match metrics.lookup "r2_score" with
    | some (MetricValue.num q) => decide (q < 7 / 10)
    | _ => false
  let specific :=
    if modelType = "LinearRegression" then
      (if lowR2 then
        ["The linear model may not capture complex relationships. Try non-linear models like Random Forest."]
      else []) ++
      ["Check for multicollinearity between features for more stable coefficients.",
       "Consider polynomial features to capture non-linear relationships."]
    else if modelType = "RandomForest" then
      ["Try increasing the number of estimators for potentially better performance.",
       "Adjust max_depth to control overfitting or underfitting.",
       "Feature selection might help reduce noise from less important features."]
    else if modelType = "GradientBoosting" then
      ["Experiment with lower learning rates and more estimators for better generalization.",
       "Try different subsample values to reduce overfitting.",
       "Early stopping can help prevent overfitting while saving computation time."]
    else if modelType = "SVM" then
      ["Try different kernel types for capturing complex patterns.",
       "Adjust the C parameter to balance regularization and model fit.",
       "SVMs are sensitive to feature scaling, ensure all features are on similar scales."]
    else []
  let ai := ["For AI adoption prediction, consider collecting more data on organization culture and digital readiness.",
    "Include industry-specific variables to better capture adoption patterns unique to each sector."]
  base ++ specific ++ ai

/-- The display structure built by `displayModelResults` (dashboard.js
1082-1201): header, metric cards, optional feature chart, optional prediction
view, optional AI-adoption insights, improvement suggestions. -/
structure RenderOutput where
  headerTarget : String
  headerModel : String
  headerCategoricalBadge : Bool
  metricCards : List (String × DisplayVal)
  featureChart : Option (List (String × ℚ))
  predictionView : Option PredRender
  aiInsights : Option (List (String × FixedDec))
  suggestions : List String
deriving DecidableEq, Repr

/-- The metric card section, reading `data.metrics` (dashboard.js 1107-1112),
threading the untouched result value through. -/
def renderMetricsSt (d : ModelResultData) : List (String × DisplayVal) × ModelResultData :=
  (renderMetrics d.metrics, d)

/-- The feature-importance chart step (dashboard.js 1189-1191), threading the
untouched result value through. -/
def renderFeatureChartSt (d : ModelResultData) :
    Option (List (String × ℚ)) × ModelResultData :=
  (d.feature_importance.map featureImportanceChartData, d)

/-- The prediction-view step (dashboard.js 1194-1200), threading the untouched
result value through. -/
def renderPredictionsSt (d : ModelResultData) : Option PredRender × ModelResultData :=
  (d.predictions.map fun p =>
    if d.is_categorical_target then
      PredRender.categorical (createCategoricalPredictionTable p.actual p.predicted)
    else
      PredRender.scatter ⟨p.actual.enum.map fun e => (e.2, p.predicted.get? e.1)⟩, d)

/-- The AI-adoption insight step (dashboard.js 1145-1156): shown only when the
target name mentions "ai" or "adoption"; threading the untouched result
value through. -/
def renderInsightsSt (d : ModelResultData) :
    Option (List (String × FixedDec)) × ModelResultData :=
  (if strIncludes (jsToLower d.target_column) "ai" ||
      strIncludes (jsToLower d.target_column) "adoption" then
    some (insightEntries (d.feature_importance.getD []))
  else none, d)

/-- `displayModelResults` as a state transformer: the rendered display data
together with the model-result value as it stands after rendering.  Each step
only reads the result object, mirroring the source, which never assigns to a
property of `data`. -/
def displayModelResultsSt (d : ModelResultData) : RenderOutput × ModelResultData :=
  let (cards, d1) := renderMetricsSt d
  let (chart, d2) := renderFeatureChartSt d1
  let (pview, d3) := renderPredictionsSt d2
  let (ins, d4) := renderInsightsSt d3
  (⟨d4.target_column, d4.model_type, d4.is_categorical_target, cards, chart, pview, ins,
    getModelImprovementSuggestions d4.model_type d4.metrics⟩, d4)

/-- Per-column statistics as the dashboard receives them (`stats` entries of
the `/api/data` payload and of `createDummyData`). -/
inductive ColumnStats where
  | numeric (min max mean median std : ℚ) (value_counts : List (String × Nat))
      (unique_values : Nat) : ColumnStats
  | categorical (value_counts : List (String × Nat)) (unique_values : Nat) : ColumnStats
deriving DecidableEq, Repr

/-- The dashboard data payload (`/api/data` response shape, also the shape of
`createDummyData`). -/
structure DashData where
  success : Bool
  row_count : Nat
  column_count : Nat
  stats : List (String × ColumnStats)
  filter_options : List (String × List String)
deriving DecidableEq, Repr

/-- The `stats` object of `createDummyData` (dashboard.js 408-450). -/
def dummyStats : List (String × ColumnStats) :=
  [("Age", ColumnStats.numeric 18 65 35.2 33 12.5 [] 48),
   ("Department", ColumnStats.categorical
      [("Engineering", 112), ("Marketing", 56), ("Sales", 98), ("HR", 23), ("Finance", 43)] 5),
   ("Education", ColumnStats.categorical
      [("Bachelor", 234), ("Master", 143), ("PhD", 45), ("High School", 98)] 4),
   ("Salary", ColumnStats.numeric 30000 150000 75000 68000 25000 [] 120)]

/-- `createDummyData` (dashboard.js 404-462): the fabricated placeholder
payload shown when `/api/data` fails. -/
def createDummyData : DashData :=
  { success := true
    row_count := 520
    column_count := dummyStats.length
    stats := dummyStats
    filter_options :=
      [("Department", ["Engineering", "Marketing", "Sales", "HR", "Finance"]),
       ("Education", ["Bachelor", "Master", "PhD", "High School"])] }

/-- A `fetch` that resolved with a parsed body, or rejected with an error
message. -/
inductive FetchOutcome (α : Type) where
  | ok (val : α) : FetchOutcome α
  | err (msg : String) : FetchOutcome α
deriving DecidableEq, Repr

/-- The dashboard state that `loadData` leaves behind: what is displayed, the
global `window.dashboardData`, and the error banner text if any. -/
structure LoadState where
  displayedData : Option DashData
  dashboardData : Option DashData
  errorMsg : Option String
deriving DecidableEq, Repr

/-- `loadData` (dashboard.js 18-55) as a function of the fetch outcome: on
success the payload is displayed and stored; on failure `showError` runs and
the dummy payload is displayed and stored in its place. -/
def loadData : FetchOutcome DashData → LoadState
  | FetchOutcome.ok d =>
      { displayedData := some d, dashboardData := some d, errorMsg := none }
  | FetchOutcome.err m =>
      { displayedData := some createDummyData
        dashboardData := some createDummyData
        errorMsg := some ("Error loading data: " ++ m) }

/-- One `Math.random()` draw from an explicit stream (default 0 when the
modelled stream is exhausted). -/
def nextRand : List ℚ → ℚ × List ℚ
  | [] => (0, [])
  | q :: rest => (q, rest)

/-- `categories[Math.floor(r * categories.length)]`; `Math.random()` lies in
`[0, 1)` so the index is in range (out of range would be `undefined`). -/
def randPick (categories : List String) (r : ℚ) : String :=
  categories.getD (Int.toNat ⌊r * (categories.length : ℚ)⌋) ""

/-- The categorical mock-prediction loop (dashboard.js 1658-1671): per
iteration, one draw for the actual category, one for the 70% match chance,
and, on a miss, one for the substitute category. -/
def mockCatLoop (categories : List String) :
    Nat → List ℚ → List String × List String × List ℚ
  | 0, rand => ([], [], rand)
  | Nat.succ n, rand =>
      let (r1, rand1) := nextRand rand
      let actualCat := randPick categories r1
      let (r2, rand2) := nextRand rand1
      if r2 < 0.7 then
        let (actual, predicted, rand3) := mockCatLoop categories n rand2
        (actualCat :: actual, actualCat :: predicted, rand3)
      else
        let otherCats := categories.filter fun c => decide (c ≠ actualCat)
        let (r3, rand3) := nextRand rand2
        let predCat := randPick otherCats r3
        let (actual, predicted, rand4) := mockCatLoop categories n rand3
        (actualCat :: actual, predCat :: predicted, rand4)

/-- The numeric mock-prediction loop (dashboard.js 1692-1700): per iteration,
one draw for the actual value and one for the noise on the prediction. -/
def mockNumLoop (mean std : ℚ) : Nat → List ℚ → List ℚ × List ℚ × List ℚ
  | 0, rand => ([], [], rand)
  | Nat.succ n, rand =>
      let (r1, rand1) := nextRand rand
      let actualValue := max 0 (mean + (r1 - 0.5) * std * 2)
      let (r2, rand2) := nextRand rand1
      let noise := (r2 - 0.5) * std * 0.4
      let (actual, predicted, rand3) := mockNumLoop mean std n rand2
      (actualValue :: actual, max 0 (actualValue + noise) :: predicted, rand3)

/-- Base-36 digit character (0-9 then a-z). -/
def base36Digit (n : Nat) : Char :=
  if n < 10 then Char.ofNat (48 + n) else Char.ofNat (87 + n)

/-- The first `k` base-36 fractional digits of `q`. -/
def base36FracDigits : Nat → ℚ → List Char
  | 0, _ => []
  | Nat.succ k, q =>
      let q36 := q * 36
      base36Digit (Int.toNat ⌊q36⌋) :: base36FracDigits k (q36 - (⌊q36⌋ : ℚ))

/-- Drop trailing zero digits, as `Number.prototype.toString` does. -/
def dropTrailingZeroDigits (l : List Char) : List Char :=
  (l.reverse.dropWhile fun c => c = '0').reverse

/-- `generateMockModelId` (dashboard.js 1722-1724):
`'model_' + Math.random().toString(36).substring(2, 15)`, i.e. up to 13
fractional base-36 digits of one random draw.  (The double-precision rounding
of `toString(36)` is not modelled; the digits come from the exact rational.) -/
def generateMockModelId (r : ℚ) : String :=
  "model_" ++ String.mk (dropTrailingZeroDigits (base36FracDigits 13 r))

/-- `createMockModelResults` (dashboard.js 1521-1719).  `timestamp` models
`new Date().toISOString()` and `rand` the `Math.random()` stream; both are
ambient browser effects passed explicitly. -/
def createMockModelResults (timestamp : String)
    (modelName targetColumn modelType : String) (params : ModelParams)
    (rand : List ℚ) : ModelResultData :=
  let lower := jsToLower targetColumn
  let isAIAdoption := strIncludes lower "ai" || strIncludes lower "adoption"
  let mightBeCategorical := strIncludes lower "level" || strIncludes lower "category" ||
    strIncludes lower "type" || strIncludes lower "class" || strIncludes lower "rating" ||
    strIncludes lower "status" || strIncludes lower "familiarity"
  let metrics : List (String × MetricValue) :=
    if isAIAdoption then
      if modelType = "LinearRegression" then
        [("r2_score", MetricValue.num 0.76), ("mean_absolute_error", MetricValue.num 0.11),
         ("mean_squared_error", MetricValue.num 0.032),
         ("root_mean_squared_error", MetricValue.num 0.18)]
      else if modelType = "RandomForest" then
        [("r2_score", MetricValue.num 0.85), ("mean_absolute_error", MetricValue.num 0.085),
         ("mean_squared_error", MetricValue.num 0.026),
         ("root_mean_squared_error", MetricValue.num 0.16)]
      else if modelType = "GradientBoosting" then
        [("r2_score", MetricValue.num 0.88), ("mean_absolute_error", MetricValue.num 0.078),
         ("mean_squared_error", MetricValue.num 0.022),
         ("root_mean_squared_error", MetricValue.num 0.15)]
      else
        [("r2_score", MetricValue.num 0.82), ("mean_absolute_error", MetricValue.num 0.092),
         ("mean_squared_error", MetricValue.num 0.028),
         ("root_mean_squared_error", MetricValue.num 0.17)]
    else
      if modelType = "LinearRegression" then
        [("r2_score", MetricValue.num 0.68), ("mean_absolute_error", MetricValue.num 8.95),
         ("mean_squared_error", MetricValue.num 125.6),
         ("root_mean_squared_error", MetricValue.num 11.21)]
      else if modelType = "RandomForest" then
        [("r2_score", MetricValue.num 0.82), ("mean_absolute_error", MetricValue.num 6.45),
         ("mean_squared_error", MetricValue.num 64.3),
         ("root_mean_squared_error", MetricValue.num 8.02)]
      else if modelType = "GradientBoosting" then
        [("r2_score", MetricValue.num 0.84), ("mean_absolute_error", MetricValue.num 5.83),
         ("mean_squared_error", MetricValue.num 58.7),
         ("root_mean_squared_error", MetricValue.num 7.66)]
      else
        [("r2_score", MetricValue.num 0.75), ("mean_absolute_error", MetricValue.num 7.22),
         ("mean_squared_error", MetricValue.num 85.1),
         ("root_mean_squared_error", MetricValue.num 9.23)]
  let featureImportance : List (String × ℚ) :=
    if isAIAdoption then
      [("Technical_Infrastructure", 0.28), ("Management_Support", 0.23),
       ("Budget_Allocation", 0.18), ("Staff_Skills", 0.15),
       ("Industry_Competition", 0.09), ("Previous_Tech_Adoption", 0.07)]
    else
      [("Age", 0.18), ("Department", 0.12), ("Education", 0.25), ("Salary", 0.19),
       ("Years_Experience", 0.14), ("Performance_Score", 0.12)]
  let isCategoricalTarget := mightBeCategorical
  if isCategoricalTarget then
    let categories :=
      if strIncludes lower "familiarity" then
        ["Not familiar at all", "Slightly familiar", "Moderately familiar",
         "Very familiar", "Extremely familiar"]
      else if strIncludes lower "adoption" then
        ["Not adopted", "Planning to adopt", "Early adoption", "Partial adoption",
         "Full adoption"]
      else if strIncludes lower "level" then
        ["Beginner", "Intermediate", "Advanced", "Expert"]
      else ["Low", "Medium", "High"]
    let targetMapping := categories.enum.map fun e => (e.2, e.1)
    let (actual, predicted, rand1) := mockCatLoop categories 50 rand
    let (rid, _) := nextRand rand1
    { success := true
      error := none
      model_id := generateMockModelId rid
      model_name := modelName
      target_column := targetColumn
      model_type := modelType
      params := params
      metrics := [("accuracy", MetricValue.num 0.76), ("precision", MetricValue.num 0.74),
        ("recall", MetricValue.num 0.73), ("f1_score", MetricValue.num 0.73)]
      feature_importance := some featureImportance
      predictions := some ⟨actual.map PredVal.str, predicted.map PredVal.str, targetMapping⟩
      is_categorical_target := isCategoricalTarget
      target_mapping := targetMapping
      created_at := timestamp }
  else
    let mean : ℚ := if isAIAdoption then 0.5 else 50
    let std : ℚ := if isAIAdoption then 0.25 else 20
    let (actual, predicted, rand1) := mockNumLoop mean std 50 rand
    let (rid, _) := nextRand rand1
    { success := true
      error := none
      model_id := generateMockModelId rid
      model_name := modelName
      target_column := targetColumn
      model_type := modelType
      params := params
      metrics := metrics
      feature_importance := some featureImportance
      predictions := some ⟨actual.map PredVal.num, predicted.map PredVal.num, []⟩
      is_categorical_target := isCategoricalTarget
      target_mapping := []
      created_at := timestamp }

/-- The dashboard state that `trainModel` leaves behind: the results shown,
the global `window.modelResults`, and the error banner text if any. -/
structure TrainState where
  displayedResults : Option ModelResultData
  modelResults : Option ModelResultData
  errorMsg : Option String
deriving DecidableEq, Repr

/-- `data.error || 'Error training model'` (dashboard.js 1031): JavaScript
falsy fallback, an absent or empty error string yields the default. -/
def jsOrDefault (o : Option String) (d : String) : String :=
  match o with
  | some s => if s = "" then d else s
  | none => d

/-- `trainModel` (dashboard.js 977-1045) as a function of the inputs and the
fetch outcome.  Empty model name or target column stop before the request; a
`success: false` body surfaces the server error; a rejected fetch surfaces
the error and installs `createMockModelResults` as the displayed result. -/
def trainModel (timestamp : String) (rand : List ℚ)
    (modelName targetColumn modelType : String) (params : ModelParams)
    (resp : FetchOutcome ModelResultData) : TrainState :=
  if jsTrim modelName = "" then
    { displayedResults := none, modelResults := none,
      errorMsg := some "Please enter a model name" }
  else if targetColumn = "" then
    { displayedResults := none, modelResults := none,
      errorMsg := some "Please select a target column" }
  else
    match resp with
    | FetchOutcome.ok data =>
        if data.success then
          { displayedResults := some data, modelResults := some data, errorMsg := none }
        else
          { displayedResults := none, modelResults := none,
            errorMsg := some (jsOrDefault data.error "Error training model") }
    | FetchOutcome.err m =>
        let mockData := createMockModelResults timestamp
          (jsTrim modelName) targetColumn modelType params rand
        { displayedResults := some mockData, modelResults := some mockData,
          errorMsg := some ("Error training model: " ++ m) }

/-- A concrete `success: false` response body, as the backend produces when
training fails server-side (used to exercise the non-exceptional error path). -/
def sampleFailedResponse : ModelResultData :=
  { success := false, error := some "bad", model_id := "", model_name := "",
    target_column := "", model_type := "", params := ModelParams.empty,
    metrics := [], feature_importance := none, predictions := none,
    is_categorical_target := false, target_mapping := [], created_at := "" }

/-- The test-size percentage read by `trainModel` (dashboard.js 1003):
`document.getElementById('test-size')?.value || 20`.  `none` models a missing
element or an empty (falsy) value string; `some q` an entered numeral of
value `q` (including `"0"`, which is truthy). -/
def testSizeValue : Option ℚ → ℚ
  | none => 20
  | some q => q

/-- The `test_size` fraction sent in the request body (dashboard.js 1018):
the percentage divided by 100, with no range validation. -/
def submittedTestFraction (input : Option ℚ) : ℚ :=
  testSizeValue input / 100

/-- Modelled from the spec (§4.2, §7): the target column kinds.  The Flask
backend that serves `/api/train_model` is not under `src/`; only its caller
(dashboard.js) and the README's route list are. -/
inductive ColumnKind where
  | Numeric : ColumnKind
  | Categorical : ColumnKind
deriving DecidableEq, Repr

/-- Modelled from the spec (§4.2): the task type resolved from the target
column's kind. -/
def resolveTaskType : ColumnKind → String
  | ColumnKind.Numeric => "Regression"
  | ColumnKind.Categorical => "Classification"

/-- Modelled from the spec (§4.2): the model family allowed for each target
kind. -/
def allowedModelTypes : ColumnKind → List String
  | ColumnKind.Numeric =>
      ["LinearRegression", "RandomForestRegressor", "GradientBoostingRegressor"]
  | ColumnKind.Categorical =>
      ["LogisticRegression", "RandomForestClassifier", "GradientBoostingClassifier"]

/-- Modelled from the spec (§3): the `ModelRequest` fields the boundary check
inspects. -/
structure SpecModelRequest where
  targetColumn : String
  modelType : String
  testFraction : ℚ
deriving DecidableEq, Repr

/-- Modelled from the spec (§7): the error taxonomy of the training boundary. -/
inductive TrainFailure where
  | UnknownColumnError : TrainFailure
  | ModelTypeMismatchError : TrainFailure
  | InsufficientDataError : TrainFailure
  | TrainingError (msg : String) : TrainFailure
deriving DecidableEq, Repr

/-- Modelled from the spec (§4.2-§4.3): the server-side `/api/train_model`
boundary, absent from `src/`.  It resolves the target column, rejects a model
type outside the resolved family with `ModelTypeMismatchError`, and only then
invokes the training collaborator. -/
def handleTrainRequest {σ : Type} (columns : List (String × ColumnKind))
    (req : SpecModelRequest) (collab : SpecModelRequest → Except String σ) :
    Except TrainFailure σ :=
  match columns.lookup req.targetColumn with
  | none => Except.error TrainFailure.UnknownColumnError
  | some kind =>
      if req.modelType ∈ allowedModelTypes kind then
        match collab req with
        | Except.ok r => Except.ok r
        | Except.error e => Except.error (TrainFailure.TrainingError e)
      else Except.error TrainFailure.ModelTypeMismatchError

/-! ## Supporting lemmas -/

theorem mem_foldl_jsSet {α : Type} [DecidableEq α] (xs : List α) (acc : List α) (x : α) :
    x ∈ xs.foldl (fun acc x => if x ∈ acc then acc else acc ++ [x]) acc ↔
      x ∈ acc ∨ x ∈ xs := by
  induction xs generalizing acc with
  | nil => simp
  | cons y ys ih =>
      simp only [List.foldl_cons]
      by_cases hy : y ∈ acc
      · rw [if_pos hy, ih]
        simp only [List.mem_cons]
        constructor
        · rintro (h | h)
          · exact Or.inl h
          · exact Or.inr (Or.inr h)
        · rintro (h | rfl | h)
          · exact Or.inl h
          · exact Or.inl hy
          · exact Or.inr h
      · rw [if_neg hy, ih]
        simp only [List.mem_append, List.mem_singleton, List.mem_cons]
        tauto

theorem mem_jsSetList {α : Type} [DecidableEq α] (xs : List α) (x : α) :
    x ∈ jsSetList xs ↔ x ∈ xs := by
  rw [jsSetList, mem_foldl_jsSet]
  simp

theorem nodup_foldl_jsSet {α : Type} [DecidableEq α] (xs : List α) (acc : List α)
    (h : acc.Nodup) :
    (xs.foldl (fun acc x => if x ∈ acc then acc else acc ++ [x]) acc).Nodup := by
  induction xs generalizing acc with
  | nil => simpa using h
  | cons y ys ih =>
      simp only [List.foldl_cons]
      by_cases hy : y ∈ acc
      · rw [if_pos hy]
        exact ih _ h
      · rw [if_neg hy]
        refine ih _ ?_
        simp [List.nodup_append, h, hy]

theorem nodup_jsSetList {α : Type} [DecidableEq α] (xs : List α) : (jsSetList xs).Nodup :=
  nodup_foldl_jsSet xs [] (by simp)

theorem jsSetList_perm_dedup {α : Type} [DecidableEq α] (xs : List α) :
    (jsSetList xs).Perm xs.dedup :=
  (List.perm_ext_iff_of_nodup (nodup_jsSetList xs) (xs.nodup_dedup)).mpr fun a => by
    rw [mem_jsSetList, List.mem_dedup]

theorem length_jsSetList_eq_dedup {α : Type} [DecidableEq α] (xs : List α) :
    (jsSetList xs).length = xs.dedup.length :=
  (jsSetList_perm_dedup xs).length_eq

theorem sum_map_update {α : Type} [DecidableEq α] (l : List α) (hl : l.Nodup) (p : α)
    (hp : p ∈ l) (f g : α → Nat) (hg : ∀ x, g x = if x = p then f x + 1 else f x) :
    (l.map g).sum = (l.map f).sum + 1 := by
  induction l with
  | nil => simp at hp
  | cons a rest ih =>
      rcases List.mem_cons.mp hp with rfl | hp2
      · have hrest : rest.map g = rest.map f := by
          apply List.map_congr_left
          intro x hx
          have hxp : x ≠ p := fun he => (List.nodup_cons.mp hl).1 (he ▸ hx)
          rw [hg, if_neg hxp]
        simp only [List.map_cons, List.sum_cons, hrest, hg p, eq_self_iff_true, if_true]
        omega
      · have ha : a ≠ p := by
          rintro rfl
          exact (List.nodup_cons.mp hl).1 hp2
        have := ih (List.nodup_cons.mp hl).2 hp2
        simp only [List.map_cons, List.sum_cons, this, hg a, if_neg ha]
        omega

theorem gridSum_bump {α : Type} [DecidableEq α] (cats : List α) (hn : cats.Nodup)
    (m : α → α → Nat) (a p : α) (ha : a ∈ cats) (hp : p ∈ cats) :
    (cats.map fun x => (cats.map fun y => bumpCell m a p x y).sum).sum =
      (cats.map fun x => (cats.map fun y => m x y).sum).sum + 1 := by
  apply sum_map_update cats hn a ha (fun x => (cats.map fun y => m x y).sum)
  intro x
  by_cases hx : x = a
  · subst hx
    rw [if_pos rfl]
    apply sum_map_update cats hn p hp (fun y => m x y)
    intro y
    by_cases hy : y = p
    · subst hy
      simp [bumpCell]
    · simp [bumpCell, hy]
  · rw [if_neg hx]
    congr 1
    apply List.map_congr_left
    intro y _
    simp [bumpCell, hx]

theorem gridSum_fillMatrix {α : Type} [DecidableEq α] (cats : List α) (hn : cats.Nodup)
    (pairs : List (α × α)) (hpairs : ∀ q ∈ pairs, q.1 ∈ cats ∧ q.2 ∈ cats)
    (m : α → α → Nat) :
    (cats.map fun x => (cats.map fun y => fillMatrix pairs m x y).sum).sum =
      (cats.map fun x => (cats.map fun y => m x y).sum).sum + pairs.length := by
  induction pairs generalizing m with
  | nil => simp [fillMatrix]
  | cons q rest ih =>
      rw [fillMatrix]
      rw [ih (fun r hr => hpairs r (List.mem_cons_of_mem _ hr)) (bumpCell m q.1 q.2)]
      rw [gridSum_bump cats hn m q.1 q.2 (hpairs q (List.mem_cons_self _ _)).1
        (hpairs q (List.mem_cons_self _ _)).2]
      simp only [List.length_cons]
      omega

theorem gridSum_zero {α : Type} (cats : List α) :
    (cats.map fun _ => (cats.map fun _ => (0 : Nat)).sum).sum = 0 := by
  simp

/-! ## Claims -/

/-- C2: a training request whose modelType is outside the model family
resolved for the target column's kind (regression family for Numeric,
classification family for Categorical) fails with ModelTypeMismatchError
before any training work begins: the outcome is the same for every training
collaborator, so no collaborator invocation can have contributed. -/
theorem C2_model_type_mismatch_rejected {σ : Type}
    (columns : List (String × ColumnKind)) (req : SpecModelRequest) (kind : ColumnKind)
    (hcol : columns.lookup req.targetColumn = some kind)
    (hmm : req.modelType ∉ allowedModelTypes kind)
    (collab collab2 : SpecModelRequest → Except String σ) :
    handleTrainRequest columns req collab = Except.error TrainFailure.ModelTypeMismatchError ∧
    handleTrainRequest columns req collab = handleTrainRequest columns req collab2 := by
  unfold handleTrainRequest
  rw [hcol]
  simp [hmm]

/-- Witness for C2: the spec's own scenario, `LinearRegression` against the
categorical target `Department`, rejected for an always-succeeding collaborator. -/
theorem C2_witness :
    handleTrainRequest [("Department", ColumnKind.Categorical)]
        ⟨"Department", "LinearRegression", 1 / 5⟩ (fun r => Except.ok r.modelType) =
      Except.error TrainFailure.ModelTypeMismatchError :=
  (C2_model_type_mismatch_rejected [("Department", ColumnKind.Categorical)]
    ⟨"Department", "LinearRegression", 1 / 5⟩ ColumnKind.Categorical (by decide)
    (by decide) (fun r => Except.ok r.modelType) (fun r => Except.ok r.modelType)).1

/-- C5: a numeric metric value is displayed as its 4-decimal `toFixed(4)`
rendering, and the CSV export formats it identically. -/
theorem C5_metric_display_fixed4 (metrics : List (String × MetricValue))
    (name : String) (q : ℚ) (h : (name, MetricValue.num q) ∈ metrics) :
    (formatMetricName name, DisplayVal.fixed (jsToFixed 4 q)) ∈ renderMetrics metrics ∧
    (formatMetricName name, DisplayVal.fixed (jsToFixed 4 q)) ∈ exportMetricRows metrics ∧
    exportMetricValue (MetricValue.num q) = displayMetricValue (MetricValue.num q) ∧
    (jsToFixed 4 q).digits = 4 := by
  refine ⟨?_, ?_, rfl, rfl⟩
  · have := List.mem_map_of_mem
      (fun e : String × MetricValue => (formatMetricName e.1, displayMetricValue e.2)) h
    simpa [renderMetrics, displayMetricValue] using this
  · have := List.mem_map_of_mem
      (fun e : String × MetricValue => (formatMetricName e.1, exportMetricValue e.2)) h
    simpa [exportMetricRows, exportMetricValue] using this

/-- Witness for C5 at the metric list `[("r2_score", 0.76)]`. -/
theorem C5_witness :
    (formatMetricName "r2_score", DisplayVal.fixed (jsToFixed 4 (0.76 : ℚ))) ∈
        renderMetrics [("r2_score", MetricValue.num 0.76)] ∧
    (formatMetricName "r2_score", DisplayVal.fixed (jsToFixed 4 (0.76 : ℚ))) ∈
        exportMetricRows [("r2_score", MetricValue.num 0.76)] ∧
    exportMetricValue (MetricValue.num 0.76) = displayMetricValue (MetricValue.num 0.76) ∧
    (jsToFixed 4 (0.76 : ℚ)).digits = 4 :=
  C5_metric_display_fixed4 [("r2_score", MetricValue.num 0.76)] "r2_score" 0.76
    (List.mem_singleton.mpr rfl)

/-- C7 counterexample: the claim says the submitted test fraction always lies
in (0, 1), but an entered test-size of 100 yields exactly 1 and an entered
"0" (a truthy string) yields 0 — no validation constrains the range. -/
theorem C7_counterexample :
    submittedTestFraction (some 100) = 1 ∧
    ¬(0 < submittedTestFraction (some 100) ∧ submittedTestFraction (some 100) < 1) ∧
    submittedTestFraction (some 0) = 0 := by
  norm_num [submittedTestFraction, testSizeValue]

/-- C7 amended: the submitted fraction is the entered percentage divided by
100, defaulting to 0.2 when the input is absent or empty; it lies in (0, 1)
exactly when the entered percentage does in (0, 100), which nothing enforces. -/
theorem C7_amended (input : Option ℚ) (q : ℚ) (h0 : 0 < q) (h100 : q < 100) :
    submittedTestFraction input = testSizeValue input / 100 ∧
    submittedTestFraction none = 0.2 ∧
    submittedTestFraction (some q) = q / 100 ∧
    0 < submittedTestFraction (some q) ∧ submittedTestFraction (some q) < 1 := by
  refine ⟨rfl, by norm_num [submittedTestFraction, testSizeValue], rfl, ?_, ?_⟩
  · exact div_pos h0 (by norm_num)
  · rw [submittedTestFraction, testSizeValue, div_lt_one (by norm_num)]
    exact h100

/-- Witness for C7 at an entered test size of 25 percent. -/
theorem C7_witness :
    submittedTestFraction (some 25) = testSizeValue (some 25) / 100 ∧
    submittedTestFraction none = 0.2 ∧
    submittedTestFraction (some 25) = 25 / 100 ∧
    0 < submittedTestFraction (some 25) ∧ submittedTestFraction (some 25) < 1 :=
  C7_amended (some 25) 25 (by norm_num) (by norm_num)

/-- C8: rendering a model result leaves the result value unchanged — the
embedding threads the result through every render step and returns it intact,
mirroring the source, which only reads `data`'s fields. -/
theorem C8_display_preserves_result (d : ModelResultData) :
    (displayModelResultsSt d).2 = d ∧
    (displayModelResultsSt d).2.metrics = d.metrics ∧
    (displayModelResultsSt d).2.feature_importance = d.feature_importance ∧
    (displayModelResultsSt d).2.predictions = d.predictions ∧
    (displayModelResultsSt d).2.target_column = d.target_column ∧
    (displayModelResultsSt d).2.model_type = d.model_type :=
  ⟨rfl, rfl, rfl, rfl, rfl, rfl⟩

/-- C10 counterexample: a numeric cell holding 0 is falsy, so the code
compares it as the empty string, while the claim's condition ("converted to a
lowercase string") renders it as "0" and demands inclusion: searching "0"
over the single row [0] returns no rows although the claim's condition holds. -/
theorem C10_counterexample :
    performDataSearch ⟨["A"], [[JValue.jint 0]]⟩ "0" SearchColumn.all = [] ∧
    jsTrim (jsToLower "0") ≠ "" ∧
    claimCellMatches (jsTrim (jsToLower "0")) (JValue.jint 0) = true := by
  decide

/-- C10 amended: an empty (after lowercasing and trimming) search term shows
the full preview; for a non-empty term with "all columns" selected a row is
kept iff some cell matches, where a falsy cell (null, 0, false, empty string)
is compared as the empty string and any other cell via its `String()`
rendering, lowercased. -/
theorem C10_amended (preview : PreviewData) (rawInput : String) (row : List JValue) :
    (jsTrim (jsToLower rawInput) = "" →
      ∀ col, performDataSearch preview rawInput col = preview.rows) ∧
    (jsTrim (jsToLower rawInput) ≠ "" →
      (row ∈ performDataSearch preview rawInput SearchColumn.all ↔
        row ∈ preview.rows ∧ ∃ cell ∈ row,
          strIncludes (jsToLower (cellSearchString cell)) (jsTrim (jsToLower rawInput)) = true)) := by
  constructor
  · intro h col
    simp [performDataSearch, h]
  · intro h
    simp only [performDataSearch, if_neg h, List.mem_filter, rowMatches, List.any_eq_true]

/-- Witness for C10: searching "X" in a preview whose single row contains
"xy" keeps that row. -/
theorem C10_witness :
    [JValue.jstr "xy"] ∈
        performDataSearch ⟨["A"], [[JValue.jstr "xy"]]⟩ "X" SearchColumn.all ↔
      [JValue.jstr "xy"] ∈ [[JValue.jstr "xy"]] ∧ ∃ cell ∈ [JValue.jstr "xy"],
        strIncludes (jsToLower (cellSearchString cell)) (jsTrim (jsToLower "X")) = true :=
  (C10_amended ⟨["A"], [[JValue.jstr "xy"]]⟩ "X" [JValue.jstr "xy"]).2 (by decide)

/-- C4 counterexample: for the weights {a: 2, b: 2} (sum 4, not 1) the
presenter's insight list shows 200.0% for each feature (raw weight × 100),
while the claim's re-normalization would show 50%: the presenter does not
divide by the sum of the weights. -/
theorem C4_counterexample :
    insightEntries [("a", 2), ("b", 2)] =
      [("a", ⟨1, 2000⟩), ("b", ⟨1, 2000⟩)] ∧
    specNormalizedPercents [("a", 2), ("b", 2)] = [("a", 50), ("b", 50)] ∧
    jsToFixed 1 (50 : ℚ) = ⟨1, 500⟩ ∧
    chartTooltipPercent 2 = ⟨1, 2000⟩ ∧
    (⟨1, 2000⟩ : FixedDec) ≠ ⟨1, 500⟩ := by
  refine ⟨?_, ?_, ?_, ?_, by decide⟩ <;> with_unfolding_all rfl

/-- C4 amended: the presenter keeps every raw weight unchanged in the sorted
chart data (the weight total is preserved, not re-scaled to 1), and every
percentage it renders is the raw weight multiplied by 100 and passed to
`toFixed(1)` — no re-normalization by the sum of the weights happens. -/
theorem C4_amended (fi : List (String × ℚ)) (f : String) (w : ℚ) (h : (f, w) ∈ fi) :
    (f, w) ∈ featureImportanceChartData fi ∧
    ((featureImportanceChartData fi).map Prod.snd).sum = (fi.map Prod.snd).sum ∧
    chartTooltipPercent w = jsToFixed 1 (w * 100) ∧
    insightEntries fi =
      ((sortDescByVal fi).take 5).map fun e => (e.1, jsToFixed 1 (e.2 * 100)) := by
  refine ⟨?_, ?_, rfl, rfl⟩
  · exact List.mem_mergeSort.mpr h
  · exact (((List.mergeSort_perm fi _)).map Prod.snd).sum_eq

/-- Witness for C4 at the single-feature map {a: 2}. -/
theorem C4_witness :
    ("a", (2 : ℚ)) ∈ featureImportanceChartData [("a", 2)] ∧
    ((featureImportanceChartData [("a", 2)]).map Prod.snd).sum =
      ([(("a", (2 : ℚ)))].map Prod.snd).sum ∧
    chartTooltipPercent 2 = jsToFixed 1 (2 * 100) ∧
    insightEntries [("a", 2)] =
      ((sortDescByVal [("a", 2)]).take 5).map fun e => (e.1, jsToFixed 1 (e.2 * 100)) :=
  C4_amended [("a", 2)] "a" 2 (List.mem_singleton.mpr rfl)

/-- C6 counterexample: with 11 features both the chart and the CSV export list
all 11 entries — there is no top-10 (or any) truncation in either. -/
theorem C6_counterexample :
    (featureImportanceChartData
      [("f1", 11), ("f2", 10), ("f3", 9), ("f4", 8), ("f5", 7), ("f6", 6), ("f7", 5),
       ("f8", 4), ("f9", 3), ("f10", 2), ("f11", 1)]).length = 11 ∧
    (exportFeatureRows
      [("f1", 11), ("f2", 10), ("f3", 9), ("f4", 8), ("f5", 7), ("f6", 6), ("f7", 5),
       ("f8", 4), ("f9", 3), ("f10", 2), ("f11", 1)]).length = 11 := by
  constructor <;>
    simp [featureImportanceChartData, exportFeatureRows, sortDescByVal,
      List.length_mergeSort]

/-- C6 amended: chart and CSV export list all features (a permutation of the
input, same length) sorted by weight in descending order; no top-K truncation
is applied there — only the separate AI-adoption insight list slices the top 5. -/
theorem C6_amended (fi : List (String × ℚ)) :
    (featureImportanceChartData fi).Perm fi ∧
    (featureImportanceChartData fi).length = fi.length ∧
    List.Pairwise (fun a b : String × ℚ => b.2 ≤ a.2) (featureImportanceChartData fi) ∧
    exportFeatureRows fi =
      (featureImportanceChartData fi).map (fun e => (e.1, jsToFixed 4 e.2)) ∧
    insightEntries fi =
      ((featureImportanceChartData fi).take 5).map fun e => (e.1, jsToFixed 1 (e.2 * 100)) := by
  refine ⟨List.mergeSort_perm fi _, List.length_mergeSort fi, ?_, rfl, rfl⟩
  have hs := @List.sorted_mergeSort (String × ℚ) (fun a b => decide (b.2 ≤ a.2))
    (fun a b c h1 h2 => by
      simp only [decide_eq_true_eq] at h1 h2 ⊢
      exact le_trans h2 h1)
    (fun a b => by
      simp only [Bool.or_eq_true, decide_eq_true_eq]
      exact le_total b.2 a.2)
    fi
  exact hs.imp fun h => of_decide_eq_true h

/-- C1 counterexample: a failing `/api/data` fetch leaves the fabricated
`createDummyData` payload installed as the displayed dashboard data, and a
failing `/api/train_model` fetch installs `createMockModelResults` — whose
metrics are hard-coded constants and which claims `success` — as the
displayed model result. -/
theorem C1_counterexample :
    (loadData (FetchOutcome.err "API returned 500")).displayedData =
      some createDummyData ∧
    (loadData (FetchOutcome.err "API returned 500")).errorMsg =
      some "Error loading data: API returned 500" ∧
    createDummyData.row_count = 520 ∧
    (trainModel "2025-01-01T00:00:00.000Z" [] "m" "Salary" "LinearRegression"
        ModelParams.empty (FetchOutcome.err "Failed to fetch")).displayedResults =
      some (createMockModelResults "2025-01-01T00:00:00.000Z" "m" "Salary"
        "LinearRegression" ModelParams.empty []) ∧
    (createMockModelResults "2025-01-01T00:00:00.000Z" "m" "Salary" "LinearRegression"
        ModelParams.empty []).metrics =
      [("r2_score", MetricValue.num 0.68), ("mean_absolute_error", MetricValue.num 8.95),
       ("mean_squared_error", MetricValue.num 125.6),
       ("root_mean_squared_error", MetricValue.num 11.21)] ∧
    (createMockModelResults "2025-01-01T00:00:00.000Z" "m" "Salary" "LinearRegression"
        ModelParams.empty []).success = true := by
  refine ⟨rfl, ?_, rfl, ?_, ?_, ?_⟩ <;> with_unfolding_all rfl

/-- C1 amended: on a rejected fetch the error is surfaced via `showError`, but
a fabricated placeholder is then installed as the displayed result (the dummy
dashboard payload for `loadData`, the mock model results for `trainModel`);
only the resolved `success: false` response path surfaces the server error
without fabricating a result. -/
theorem C1_amended (msg timestamp : String) (rand : List ℚ)
    (modelName targetColumn modelType : String) (params : ModelParams)
    (d : ModelResultData)
    (hname : jsTrim modelName ≠ "") (htarget : targetColumn ≠ "") :
    ((loadData (FetchOutcome.err msg)).errorMsg = some ("Error loading data: " ++ msg) ∧
     (loadData (FetchOutcome.err msg)).displayedData = some createDummyData ∧
     (loadData (FetchOutcome.err msg)).dashboardData = some createDummyData) ∧
    ((trainModel timestamp rand modelName targetColumn modelType params
        (FetchOutcome.err msg)).errorMsg = some ("Error training model: " ++ msg) ∧
     (trainModel timestamp rand modelName targetColumn modelType params
        (FetchOutcome.err msg)).displayedResults =
       some (createMockModelResults timestamp (jsTrim modelName) targetColumn modelType
         params rand)) ∧
    (d.success = false →
      (trainModel timestamp rand modelName targetColumn modelType params
        (FetchOutcome.ok d)).displayedResults = none ∧
      (trainModel timestamp rand modelName targetColumn modelType params
        (FetchOutcome.ok d)).errorMsg =
        some (jsOrDefault d.error "Error training model")) := by
  refine ⟨⟨rfl, rfl, rfl⟩, ?_, ?_⟩
  · constructor <;> simp [trainModel, if_neg hname, if_neg htarget]
  · intro hsucc
    constructor <;> simp [trainModel, if_neg hname, if_neg htarget, hsucc]

/-- Witness for C1 at concrete failing calls. -/
theorem C1_witness :
    (((loadData (FetchOutcome.err "boom")).errorMsg = some ("Error loading data: " ++ "boom") ∧
      (loadData (FetchOutcome.err "boom")).displayedData = some createDummyData ∧
      (loadData (FetchOutcome.err "boom")).dashboardData = some createDummyData) ∧
     ((trainModel "t" [] "m" "Age" "RandomForest" ModelParams.empty
         (FetchOutcome.err "boom")).errorMsg = some ("Error training model: " ++ "boom") ∧
      (trainModel "t" [] "m" "Age" "RandomForest" ModelParams.empty
         (FetchOutcome.err "boom")).displayedResults =
        some (createMockModelResults "t" (jsTrim "m") "Age" "RandomForest"
          ModelParams.empty [])) ∧
     (sampleFailedResponse.success = false →
       (trainModel "t" [] "m" "Age" "RandomForest" ModelParams.empty
          (FetchOutcome.ok sampleFailedResponse)).displayedResults = none ∧
       (trainModel "t" [] "m" "Age" "RandomForest" ModelParams.empty
          (FetchOutcome.ok sampleFailedResponse)).errorMsg =
         some (jsOrDefault sampleFailedResponse.error "Error training model"))) :=
  C1_amended "boom" "t" [] "m" "Age" "RandomForest" ModelParams.empty
    sampleFailedResponse (by decide) (by decide)

/-- C3: the presenter's choice of representation depends only on the number of
distinct categories occurring in actual and predicted: at most 10 yields a
full confusion matrix over exactly those categories, otherwise a sampled
prediction table (up to 20 rows) with an overall accuracy summary. -/
theorem C3_representation_threshold (actual predicted : List String) :
    ((actual ++ predicted).dedup.length ≤ 10 →
      ∃ v : ConfusionView String,
        createCategoricalPredictionTable actual predicted = CatPredView.conf v ∧
        ∀ x, x ∈ v.cats ↔ x ∈ actual ∨ x ∈ predicted) ∧
    (10 < (actual ++ predicted).dedup.length →
      ∃ s : SampleView String,
        createCategoricalPredictionTable actual predicted = CatPredView.sample s ∧
        s.total = actual.length ∧
        s.sampleSize = min actual.length 20 ∧
        s.totalMatches = matchCount actual predicted ∧
        s.accuracy =
          jsToFixed 1 ((matchCount actual predicted : ℚ) / (actual.length : ℚ) * 100)) := by
  have hl := length_jsSetList_eq_dedup (actual ++ predicted)
  constructor
  · intro h
    refine ⟨⟨jsSetList (actual ++ predicted), ?_⟩, ?_, ?_⟩
    · exact (jsSetList (actual ++ predicted)).map fun a =>
        (jsSetList (actual ++ predicted)).map fun p => confusionMatrix actual predicted a p
    · simp only [createCategoricalPredictionTable]
      rw [if_pos (hl ▸ h)]
    · intro x
      rw [mem_jsSetList, List.mem_append]
  · intro h
    refine ⟨⟨min actual.length 20, actual.length,
      ((actual.zip predicted).take (min actual.length 20)).enum.map
        (fun e => (e.1 + 1, e.2.1, e.2.2, decide (e.2.1 = e.2.2))),
      matchCount actual predicted,
      jsToFixed 1 ((matchCount actual predicted : ℚ) / (actual.length : ℚ) * 100)⟩,
      ?_, rfl, rfl, rfl, rfl⟩
    simp only [createCategoricalPredictionTable]
    rw [if_neg (by rw [hl]; exact not_le.mpr h)]

/-- Witness for C3: two sequences with two distinct categories render as a
confusion matrix over exactly those categories. -/
theorem C3_witness :
    ∃ v : ConfusionView String,
      createCategoricalPredictionTable ["x"] ["y"] = CatPredView.conf v ∧
      ∀ x, x ∈ v.cats ↔ x ∈ ["x"] ∨ x ∈ ["y"] :=
  (C3_representation_threshold ["x"] ["y"]).1 (by decide)

/-- C9: for equal-length sequences with at most 10 distinct categories, the
confusion matrix is indexed by exactly the union of values occurring in actual
and predicted, and the sum of all its cells equals the sequence length (every
prediction pair counted exactly once). -/
theorem C9_confusion_matrix_total (actual predicted : List String)
    (hlen : actual.length = predicted.length)
    (hcats : (jsSetList (actual ++ predicted)).length ≤ 10) :
    ∃ v : ConfusionView String,
      createCategoricalPredictionTable actual predicted = CatPredView.conf v ∧
      (∀ x, x ∈ v.cats ↔ x ∈ actual ∨ x ∈ predicted) ∧
      (v.cells.map List.sum).sum = actual.length := by
  refine ⟨⟨jsSetList (actual ++ predicted),
    (jsSetList (actual ++ predicted)).map fun a =>
      (jsSetList (actual ++ predicted)).map fun p =>
        confusionMatrix actual predicted a p⟩, ?_, ?_, ?_⟩
  · simp only [createCategoricalPredictionTable]
    rw [if_pos hcats]
  · intro x
    rw [mem_jsSetList, List.mem_append]
  · have hpairs : ∀ q ∈ actual.zip predicted,
        q.1 ∈ jsSetList (actual ++ predicted) ∧ q.2 ∈ jsSetList (actual ++ predicted) := by
      intro q hq
      obtain ⟨h1, h2⟩ := List.of_mem_zip hq
      exact ⟨(mem_jsSetList _ _).mpr (List.mem_append.mpr (Or.inl h1)),
        (mem_jsSetList _ _).mpr (List.mem_append.mpr (Or.inr h2))⟩
    have hgrid := gridSum_fillMatrix (jsSetList (actual ++ predicted))
      (nodup_jsSetList _) (actual.zip predicted) hpairs (fun _ _ => 0)
    have hzip : (actual.zip predicted).length = actual.length := by
      rw [List.length_zip, hlen]
      exact min_self _
    simp only [List.map_map]
    calc ((jsSetList (actual ++ predicted)).map
            (List.sum ∘ fun a => (jsSetList (actual ++ predicted)).map fun p =>
              confusionMatrix actual predicted a p)).sum
        = ((jsSetList (actual ++ predicted)).map fun a =>
            ((jsSetList (actual ++ predicted)).map fun p =>
              fillMatrix (actual.zip predicted) (fun _ _ => 0) a p).sum).sum := rfl
      _ = ((jsSetList (actual ++ predicted)).map fun x =>
            ((jsSetList (actual ++ predicted)).map fun y => (0 : Nat)).sum).sum +
            (actual.zip predicted).length := hgrid
      _ = actual.length := by simp [hzip]

/-- Witness for C9: three prediction pairs over two categories; the cell sum
is 3. -/
theorem C9_witness :
    ∃ v : ConfusionView String,
      createCategoricalPredictionTable ["a", "b", "a"] ["b", "b", "a"] = CatPredView.conf v ∧
      (∀ x, x ∈ v.cats ↔ x ∈ ["a", "b", "a"] ∨ x ∈ ["b", "b", "a"]) ∧
      (v.cells.map List.sum).sum = (["a", "b", "a"] : List String).length :=
  C9_confusion_matrix_total ["a", "b", "a"] ["b", "b", "a"] (by decide) (by decide)
